import Mathlib

set_option maxHeartbeats 1000000
set_option maxRecDepth 100000

namespace TextToISL

/-!  Shallow embedding of the text-to-sign-language translation pipeline
(`app.py`) and its translation cache (`cache.py`).  Pure fragments of the
Python source become Lean functions; the filesystem-backed cache becomes an
explicit association-list store threaded through the operations; external
collaborators (nltk tokenization and POS tagging, the wall clock) become
parameters. -/

/-- Grammatical category assigned by the POS-prefix dispatch in
`ISLProcessor.convert_to_isl_structure`. -/
inductive Cat where
  | subject
  | object_
  | verb
  | other
deriving DecidableEq, Repr

/-- Python `str.upper` on the (lower-cased, alphanumeric) tokens of this
pipeline: upper-case every character. -/
def pyUpper (s : String) : String :=
  ⟨s.data.map Char.toUpper⟩

/-- The tag dispatch of the loop body of `convert_to_isl_structure`:
`pos.startswith('PRP')` selects subjects, `elif pos.startswith('NN')`
objects, `elif pos.startswith('VB')` verbs, `else` others. -/
def classify (pos : String) : Cat :=
  if pos.startsWith "PRP" then .subject
  else if pos.startsWith "NN" then .object_
  else if pos.startsWith "VB" then .verb
  else .other

/-- One iteration of the `for token, pos in pos_tags` loop of
`convert_to_isl_structure`: the token, upper-cased, is appended to the
accumulator list of its category. -/
def convertStep (acc : List String × List String × List String × List String)
    (p : String × String) : List String × List String × List String × List String :=
  match classify p.2 with
  | .subject => (acc.1 ++ [pyUpper p.1], acc.2.1, acc.2.2.1, acc.2.2.2)
  | .object_ => (acc.1, acc.2.1 ++ [pyUpper p.1], acc.2.2.1, acc.2.2.2)
  | .verb => (acc.1, acc.2.1, acc.2.2.1 ++ [pyUpper p.1], acc.2.2.2)
  | .other => (acc.1, acc.2.1, acc.2.2.1, acc.2.2.2 ++ [pyUpper p.1])

/-- `ISLProcessor.convert_to_isl_structure`: partition the tagged tokens into
subjects, objects, verbs and others by iterating over the `(token, pos)`
pairs, then concatenate the four lists in SOV order
`subjects + objects + verbs + others`. -/
def convert_to_isl_structure (pos_tags : List (String × String)) : List String :=
  let acc := pos_tags.foldl convertStep ([], [], [], [])
  acc.1 ++ acc.2.1 ++ acc.2.2.1 ++ acc.2.2.2

/-- Python `str.isalnum`: nonempty and every character alphanumeric. -/
def pyIsAlnum (s : String) : Bool :=
  !s.isEmpty && s.toList.all Char.isAlphanum

/-- `ISLProcessor.tokenize_text` after the external `nltk.word_tokenize`
call: the word units produced by the external tokenizer are filtered down to
the purely alphanumeric ones. -/
def tokenize_text (units : List String) : List String :=
  units.filter pyIsAlnum

/-- The category-`c` partition of the tagged tokens: the tokens whose tag
classifies as `c`, in their original relative order, upper-cased. -/
def partCat (pos_tags : List (String × String)) (c : Cat) : List String :=
  (pos_tags.filter (fun p => classify p.2 == c)).map (fun p => pyUpper p.1)

theorem foldl_convertStep (l : List (String × String)) (s o v t : List String) :
    l.foldl convertStep (s, o, v, t) =
      (s ++ partCat l .subject, o ++ partCat l .object_,
       v ++ partCat l .verb, t ++ partCat l .other) := by
  induction l generalizing s o v t with
  | nil => simp [partCat]
  | cons p l ih =>
    rcases h : classify p.2 with _ | _ | _ | _ <;>
      simp [List.foldl_cons, convertStep, h, partCat, List.filter_cons, ih]

theorem convert_eq_parts (l : List (String × String)) :
    convert_to_isl_structure l =
      partCat l .subject ++ partCat l .object_ ++ partCat l .verb ++ partCat l .other := by
  simp [convert_to_isl_structure, foldl_convertStep]

theorem partCat_cons (p : String × String) (l : List (String × String)) (c : Cat) :
    partCat (p :: l) c =
      if classify p.2 = c then pyUpper p.1 :: partCat l c else partCat l c := by
  by_cases h : classify p.2 = c <;> simp [partCat, List.filter_cons, h]

theorem parts_perm (l : List (String × String)) :
    (partCat l .subject ++ partCat l .object_ ++ partCat l .verb ++
      partCat l .other).Perm (l.map (fun p => pyUpper p.1)) := by
  induction l with
  | nil => simp [partCat]
  | cons p l ih =>
    have ih' :
        (partCat l .subject ++ (partCat l .object_ ++ (partCat l .verb ++
          partCat l .other))).Perm (l.map (fun p => pyUpper p.1)) := by
      simpa [List.append_assoc] using ih
    rcases h : classify p.2 with _ | _ | _ | _ <;>
        simp only [partCat_cons, h, List.map_cons, List.append_assoc, List.cons_append,
          reduceCtorEq, if_true, if_false, ite_true, ite_false, reduceIte]
    · exact List.Perm.cons _ ih'
    · exact List.perm_middle.trans (List.Perm.cons _ ih')
    · exact ((List.Perm.append_left _ List.perm_middle).trans List.perm_middle).trans
        (List.Perm.cons _ ih')
    · exact ((List.Perm.append_left _ ((List.Perm.append_left _ List.perm_middle).trans
        List.perm_middle)).trans List.perm_middle).trans (List.Perm.cons _ ih')

/-- Claim C1: for every tokenized input processed by the ISL pipeline
(external `nltk` word units, alphanumeric filtering, an arbitrary tagger
that returns one tag per retained token), the composed gloss sequence is the
concatenation of the SUBJECT, OBJECT, VERB and OTHER partitions in that
fixed order, each partition preserving the tokens' original relative order
(each is a `filter` of the tagged sequence), and the result is a permutation
of (contains exactly, no omissions or duplicates) the retained upper-cased
tokens. -/
theorem isl_compose_partition_perm (units : List String)
    (tagger : List String → List (String × String))
    (htag : (tagger (tokenize_text units)).map Prod.fst = tokenize_text units) :
    convert_to_isl_structure (tagger (tokenize_text units)) =
      partCat (tagger (tokenize_text units)) .subject ++
      partCat (tagger (tokenize_text units)) .object_ ++
      partCat (tagger (tokenize_text units)) .verb ++
      partCat (tagger (tokenize_text units)) .other ∧
    (convert_to_isl_structure (tagger (tokenize_text units))).Perm
      ((tokenize_text units).map pyUpper) := by
  refine ⟨convert_eq_parts _, ?_⟩
  have h2 : (tokenize_text units).map pyUpper
      = (tagger (tokenize_text units)).map (fun p => pyUpper p.1) := by
    conv_lhs => rw [← htag]
    simp [List.map_map, Function.comp]
  rw [convert_eq_parts, h2]
  exact parts_perm _

/-- Witness for C1 at the spec's example sentence: units from tokenizing
"i eat rice !", tags as nltk would give, with the punctuation unit dropped
by the alphanumeric filter. -/
theorem isl_compose_partition_perm_witness :
    convert_to_isl_structure
        [("i", "PRP"), ("eat", "VB"), ("rice", "NN")] =
      partCat [("i", "PRP"), ("eat", "VB"), ("rice", "NN")] .subject ++
      partCat [("i", "PRP"), ("eat", "VB"), ("rice", "NN")] .object_ ++
      partCat [("i", "PRP"), ("eat", "VB"), ("rice", "NN")] .verb ++
      partCat [("i", "PRP"), ("eat", "VB"), ("rice", "NN")] .other ∧
    (convert_to_isl_structure
        [("i", "PRP"), ("eat", "VB"), ("rice", "NN")]).Perm ["I", "EAT", "RICE"] := by
  have h := isl_compose_partition_perm ["i", "eat", "rice", "!"]
    (fun ts => ts.zip ["PRP", "VB", "NN"]) (by decide)
  have e : (fun ts => List.zip ts ["PRP", "VB", "NN"]) (tokenize_text ["i", "eat", "rice", "!"])
      = [("i", "PRP"), ("eat", "VB"), ("rice", "NN")] := by decide
  have e2 : (tokenize_text ["i", "eat", "rice", "!"]).map pyUpper
      = ["I", "EAT", "RICE"] := by decide
  rw [e, e2] at h
  exact h

/-- Python `str.lower`: lower-case every character (the normalization the
web layer and `tokenize_text` apply to input text). -/
def pyLower (s : String) : String :=
  ⟨s.data.map Char.toLower⟩

namespace MD5

/-!  The `hashlib.md5` digest used by `TranslationCache.get_cache_key`,
implemented over `Nat` byte and word lists (RFC 1321). -/

def wordMask : Nat := 4294967295

def shiftTable : List Nat :=
  [7, 12, 17, 22, 7, 12, 17, 22, 7, 12, 17, 22, 7, 12, 17, 22,
   5, 9, 14, 20, 5, 9, 14, 20, 5, 9, 14, 20, 5, 9, 14, 20,
   4, 11, 16, 23, 4, 11, 16, 23, 4, 11, 16, 23, 4, 11, 16, 23,
   6, 10, 15, 21, 6, 10, 15, 21, 6, 10, 15, 21, 6, 10, 15, 21]

def sineTable : List Nat :=
  [0xd76aa478, 0xe8c7b756, 0x242070db, 0xc1bdceee,
   0xf57c0faf, 0x4787c62a, 0xa8304613, 0xfd469501,
   0x698098d8, 0x8b44f7af, 0xffff5bb1, 0x895cd7be,
   0x6b901122, 0xfd987193, 0xa679438e, 0x49b40821,
   0xf61e2562, 0xc040b340, 0x265e5a51, 0xe9b6c7aa,
   0xd62f105d, 0x02441453, 0xd8a1e681, 0xe7d3fbc8,
   0x21e1cde6, 0xc33707d6, 0xf4d50d87, 0x455a14ed,
   0xa9e3e905, 0xfcefa3f8, 0x676f02d9, 0x8d2a4c8a,
   0xfffa3942, 0x8771f681, 0x6d9d6122, 0xfde5380c,
   0xa4beea44, 0x4bdecfa9, 0xf6bb4b60, 0xbebfbc70,
   0x289b7ec6, 0xeaa127fa, 0xd4ef3085, 0x04881d05,
   0xd9d4d039, 0xe6db99e5, 0x1fa27cf8, 0xc4ac5665,
   0xf4292244, 0x432aff97, 0xab9423a7, 0xfc93a039,
   0x655b59c3, 0x8f0ccc92, 0xffeff47d, 0x85845dd1,
   0x6fa87e4f, 0xfe2ce6e0, 0xa3014314, 0x4e0811a1,
   0xf7537e82, 0xbd3af235, 0x2ad7d2bb, 0xeb86d391]

def rotl (x n : Nat) : Nat :=
  ((x <<< n) ||| (x >>> (32 - n))) &&& wordMask

def notW (x : Nat) : Nat := x ^^^ wordMask

def addW (x y : Nat) : Nat := (x + y) &&& wordMask

/-- The round function value and message index of round `i`. -/
def mix (i b c d : Nat) : Nat × Nat :=
  if i < 16 then ((b &&& c) ||| (notW b &&& d), i)
  else if i < 32 then ((d &&& b) ||| (notW d &&& c), (5 * i + 1) % 16)
  else if i < 48 then (b ^^^ c ^^^ d, (3 * i + 5) % 16)
  else (c ^^^ (b ||| notW d), (7 * i) % 16)

def round (M : List Nat) (st : Nat × Nat × Nat × Nat) (i : Nat) :
    Nat × Nat × Nat × Nat :=
  let (a, b, c, d) := st
  let (f, g) := mix i b c d
  let f2 := addW (addW (addW f a) (sineTable.getD i 0)) (M.getD g 0)
  (d, addW b (rotl f2 (shiftTable.getD i 0)), b, c)

def processChunk (st : Nat × Nat × Nat × Nat) (M : List Nat) :
    Nat × Nat × Nat × Nat :=
  let r := (List.range 64).foldl (round M) st
  (addW st.1 r.1, addW st.2.1 r.2.1, addW st.2.2.1 r.2.2.1, addW st.2.2.2 r.2.2.2)

/-- `len` bytes of `n`, little-endian. -/
def toLE (n len : Nat) : List Nat :=
  (List.range len).map (fun i => (n >>> (8 * i)) &&& 255)

/-- MD5 padding: `0x80`, zeros up to 56 mod 64, then the 64-bit bit
length. -/
def pad (msg : List Nat) : List Nat :=
  let zeros := (120 - (msg.length + 1) % 64) % 64
  msg ++ [128] ++ List.replicate zeros 0 ++ toLE ((8 * msg.length) % (2 ^ 64)) 8

/-- Four consecutive bytes become one little-endian 32-bit word. -/
def bytesToWords : List Nat → List Nat
  | a :: b :: c :: d :: rest =>
      (a ||| (b <<< 8) ||| (c <<< 16) ||| (d <<< 24)) :: bytesToWords rest
  | _ => []

def chunksOf (bytes : List Nat) : List (List Nat) :=
  (List.range (bytes.length / 64)).map
    (fun i => bytesToWords ((bytes.drop (64 * i)).take 64))

def digestState (msg : List Nat) : Nat × Nat × Nat × Nat :=
  (chunksOf (pad msg)).foldl processChunk
    (0x67452301, 0xefcdab89, 0x98badcfe, 0x10325476)

def digestBytes (msg : List Nat) : List Nat :=
  let st := digestState msg
  toLE st.1 4 ++ toLE st.2.1 4 ++ toLE st.2.2.1 4 ++ toLE st.2.2.2 4

def hexDigit (n : Nat) : Char :=
  if n < 10 then Char.ofNat (48 + n) else Char.ofNat (87 + n)

def byteHex (b : Nat) : List Char :=
  [hexDigit (b / 16), hexDigit (b % 16)]

/-- `hashlib.md5(msg).hexdigest()`.  Checked against `hashlib` on the empty
message, "abc", 100 bytes of "a", "Hello_isl" and "hello_isl". -/
def hexdigest (msg : List Nat) : String :=
  ⟨((digestBytes msg).map byteHex).flatten⟩

end MD5

/-- UTF-8 encoding of one character, as Python `str.encode('utf-8')`
produces it. -/
def utf8Char (c : Char) : List Nat :=
  let n := c.toNat
  if n < 0x80 then [n]
  else if n < 0x800 then [0xC0 ||| (n >>> 6), 0x80 ||| (n &&& 0x3F)]
  else if n < 0x10000 then
    [0xE0 ||| (n >>> 12), 0x80 ||| ((n >>> 6) &&& 0x3F), 0x80 ||| (n &&& 0x3F)]
  else
    [0xF0 ||| (n >>> 18), 0x80 ||| ((n >>> 12) &&& 0x3F),
     0x80 ||| ((n >>> 6) &&& 0x3F), 0x80 ||| (n &&& 0x3F)]

/-- `str.encode('utf-8')`: the byte sequence of a string. -/
def utf8Bytes (s : String) : List Nat :=
  (s.data.map utf8Char).flatten

/-- `TranslationCache.get_cache_key`: the md5 hexdigest of the utf-8 bytes
of the joined f-string `text + "_" + language`. -/
def get_cache_key (text language : String) : String :=
  MD5.hexdigest (utf8Bytes (text ++ "_" ++ language))

/-- The result dictionaries built by `ISLProcessor.translate` and
`ASLProcessor.translate`: `success` plus the optional payload and error
entries (a key missing from the dictionary is `none`). -/
structure PyResult where
  success : Bool
  video_path : Option String := none
  isl_gloss : Option String := none
  asl_gloss : Option String := none
  processing_time : Option Int := none
  error : Option String := none
deriving DecidableEq, Repr

/-- One entry as pickled by `TranslationCache.set`: the result and the
`time.time()` timestamp at which it was written. -/
structure CacheData where
  result : PyResult
  timestamp : Int
deriving DecidableEq, Repr

/-- The contents of one `{key}.pkl` cache file: either bytes that fail to
unpickle, or a pickled entry. -/
inductive CacheFile where
  | corrupt
  | data (d : CacheData)
deriving DecidableEq, Repr

/-- The cache directory: one file per cache key. -/
abbrev CacheStore := List (String × CacheFile)

/-- File lookup by cache key in the cache directory. -/
def lookupStore (k : String) : CacheStore → Option CacheFile
  | [] => none
  | e :: rest => if e.1 = k then some e.2 else lookupStore k rest

/-- `TranslationCache.get`: look up the key's file; a missing file, an
unreadable file, and an entry whose timestamp is 24 hours (86400 seconds)
or more in the past all yield `None`; otherwise the stored result. -/
def cache_get (store : CacheStore) (now : Int) (text language : String) :
    Option PyResult :=
  match lookupStore (get_cache_key text language) store with
  | none => none
  | some .corrupt => none
  | some (.data d) => if now - d.timestamp < 86400 then some d.result else none

/-- `TranslationCache.set`: write the entry file for the key, replacing any
previous file with that name. -/
def cache_set (store : CacheStore) (now : Int) (text language : String)
    (result : PyResult) : CacheStore :=
  (get_cache_key text language, .data ⟨result, now⟩) ::
    store.filter (fun e => e.1 != get_cache_key text language)

/-- Counterexample to claim C2: the cache key is computed from the raw
text, with no normalization, so the texts "Hello" and "hello" — equal after
lower-casing — receive different cache keys for the same language. -/
theorem cache_key_ignores_normalization :
    pyLower "Hello" = pyLower "hello" ∧
    get_cache_key "Hello" "isl" ≠ get_cache_key "hello" "isl" := by
  constructor <;> decide

/-- Claim C2 (amended): the cache key is a deterministic md5 hash of the
raw input text joined with `"_"` and the language identifier; any two
(text, language) pairs whose joined strings coincide receive the same key.
No case normalization is applied, so texts that differ only in letter case
generally receive different keys. -/
theorem cache_key_deterministic (t1 l1 t2 l2 : String)
    (h : t1 ++ "_" ++ l1 = t2 ++ "_" ++ l2) :
    get_cache_key t1 l1 = get_cache_key t2 l2 := by
  unfold get_cache_key
  rw [h]

/-- Witness for the amended C2 at a concrete joined-string coincidence. -/
theorem cache_key_deterministic_witness :
    "a_b" ++ "_" ++ "c" = "a" ++ "_" ++ "b_c" ∧
    get_cache_key "a_b" "c" = get_cache_key "a" "b_c" :=
  ⟨by decide, cache_key_deterministic "a_b" "c" "a" "b_c" (by decide)⟩

/-- Claim C3: `TranslationCache.get` is a total function of the store and
clock (the embedding of "never raises"), and it returns a stored result
exactly when the key's file is present, unpickles, and its timestamp is
less than 24 hours (86400 seconds) old; missing files, unreadable files and
expired entries all behave as absent (`none`). -/
theorem cache_get_characterization (store : CacheStore) (now : Int)
    (text language : String) (r : PyResult) :
    cache_get store now text language = some r ↔
      ∃ d : CacheData,
        lookupStore (get_cache_key text language) store = some (.data d) ∧
        now - d.timestamp < 86400 ∧ r = d.result := by
  unfold cache_get
  rcases h : lookupStore (get_cache_key text language) store with _ | f
  · simp
  · rcases f with _ | d
    · simp
    · by_cases ht : now - d.timestamp < 86400 <;> simp [ht]
      exact eq_comm

/-- Claim C4: a `set` immediately followed by a `get` for the same text and
language returns the stored result, as long as the elapsed time stays under
the 24-hour TTL. -/
theorem cache_roundtrip (store : CacheStore) (now now2 : Int)
    (text language : String) (r : PyResult) (h : now2 - now < 86400) :
    cache_get (cache_set store now text language r) now2 text language = some r := by
  simp [cache_get, cache_set, lookupStore, h]

/-- Witness for C4 at a concrete store, clock and result. -/
theorem cache_roundtrip_witness :
    cache_get (cache_set [] 0 "hello" "isl" { success := true }) 10 "hello" "isl"
      = some { success := true } :=
  cache_roundtrip [] 0 10 "hello" "isl" { success := true } (by decide)

/-- Claim C10: distinct (text, language) pairs can receive the same cache
key, because the key hashes the joined string `text + "_" + language`:
("a_b", "c") and ("a", "b_c") join to the identical string, so their keys
coincide, and a `get` for one request returns the entry stored for the
other. -/
theorem cache_key_collision :
    (("a_b", "c") : String × String) ≠ ("a", "b_c") ∧
    get_cache_key "a_b" "c" = get_cache_key "a" "b_c" ∧
    cache_get (cache_set [] 0 "a_b" "c" { success := true }) 1 "a" "b_c"
      = some { success := true } := by
  refine ⟨by decide, rfl, ?_⟩
  have hk : get_cache_key "a" "b_c" = get_cache_key "a_b" "c" := rfl
  simp [cache_get, cache_set, lookupStore, hk]

/-- A cache access as `TranslationCache` would perform it. -/
inductive CacheOp where
  | read (key : String)
  | write (key : String)
deriving DecidableEq, Repr

/-- `SignLanguageTranslator.translate`: dispatch on `language.lower()` to
the ISL or ASL processor (whose behavior on a text is the injected
parameter), and raise `ValueError` for any other language.  The cache store
is threaded through together with a trace of cache accesses; `app.py` never
invokes `TranslationCache` (the `cached_translation` decorator defined in
`cache.py` is applied nowhere), so every branch of the source leaves the
store untouched and records no access. -/
def translatorTranslate (islF aslF : String → PyResult)
    (store : CacheStore) (text language : String) :
    Except String PyResult × CacheStore × List CacheOp :=
  if pyLower language = "isl" then (.ok (islF text), store, [])
  else if pyLower language = "asl" then (.ok (aslF text), store, [])
  else (.error "Unsupported language. Use 'isl' or 'asl'", store, [])

/-- Claim C5: for every text and every language whose lower-casing is
neither "isl" nor "asl", `translate` raises `ValueError` with the fixed
message, performs no cache read or write, and leaves the store unchanged. -/
theorem translate_rejects_unsupported (islF aslF : String → PyResult)
    (store : CacheStore) (text language : String)
    (h1 : pyLower language ≠ "isl") (h2 : pyLower language ≠ "asl") :
    translatorTranslate islF aslF store text language =
      (.error "Unsupported language. Use 'isl' or 'asl'", store, []) := by
  simp [translatorTranslate, h1, h2]

/-- Witness for C5 at the spec's example language "bsl". -/
theorem translate_rejects_unsupported_witness :
    pyLower "bsl" ≠ "isl" ∧ pyLower "bsl" ≠ "asl" ∧
    translatorTranslate (fun _ => { success := true }) (fun _ => { success := true })
        [] "hello" "bsl" =
      (.error "Unsupported language. Use 'isl' or 'asl'", [], []) :=
  ⟨by decide, by decide,
   translate_rejects_unsupported _ _ [] "hello" "bsl" (by decide) (by decide)⟩

/-- Whether a cache file's readable content holds a successful result
(unreadable files hold no result at all). -/
def fileSuccessful : CacheFile → Bool
  | .corrupt => true
  | .data d => d.result.success

/-- Every entry stored in the cache holds a result with `success = True`. -/
def allStoredSuccessful (store : CacheStore) : Bool :=
  store.all (fun e => fileSuccessful e.2)

theorem allStoredSuccessful_set (store : CacheStore) (now : Int)
    (text language : String) (r : PyResult)
    (hstore : allStoredSuccessful store = true) (hr : r.success = true) :
    allStoredSuccessful (cache_set store now text language r) = true := by
  simp only [allStoredSuccessful, cache_set, List.all_cons, fileSuccessful,
    Bool.and_eq_true] at *
  refine ⟨hr, ?_⟩
  rw [List.all_eq_true] at *
  intro e he
  exact hstore e (List.mem_of_mem_filter he)

/-- `cached_translation(cache)(func)` from `cache.py`: consult the cache
first (result dictionaries are non-empty, hence truthy, so any hit
short-circuits), otherwise run the wrapped translation and store the result
exactly when `result.get('success')` is true. -/
def cached_translation (store : CacheStore) (now : Int)
    (func : String → String → PyResult) (text language : String) :
    PyResult × CacheStore :=
  match cache_get store now text language with
  | some cached => (cached, store)
  | none =>
      let result := func text language
      if result.success then (result, cache_set store now text language result)
      else (result, store)

/-- Claim C6: the wrapped pipeline stores only successful results: if every
entry of the store holds a successful result, that still holds after a call
to the cached translation, whatever result the inner translation
produces. -/
theorem cached_translation_stores_only_success (store : CacheStore) (now : Int)
    (func : String → String → PyResult) (text language : String)
    (hstore : allStoredSuccessful store = true) :
    allStoredSuccessful (cached_translation store now func text language).2 = true := by
  unfold cached_translation
  rcases h : cache_get store now text language with _ | r
  · by_cases hs : (func text language).success
    · simpa [h, hs] using allStoredSuccessful_set store now text language _ hstore hs
    · simp [h, hs, hstore]
  · simpa [h] using hstore

/-- Witness for C6: a failing translation through the wrapper leaves the
empty store free of unsuccessful entries (nothing is written). -/
theorem cached_translation_stores_only_success_witness :
    allStoredSuccessful ([] : CacheStore) = true ∧
    allStoredSuccessful
      (cached_translation [] 0
        (fun _ _ => { success := false, error := some "boom" }) "hello" "isl").2 = true :=
  ⟨by decide,
   cached_translation_stores_only_success [] 0
     (fun _ _ => { success := false, error := some "boom" }) "hello" "isl" (by decide)⟩

/-- The dictionary returned by `ISLProcessor.process_text_to_isl` when no
exception occurs. -/
structure IslPayload where
  video_path : String
  isl_gloss : String
  processing_time : Int
deriving DecidableEq, Repr

/-- The dictionary returned by `ASLProcessor.process_text_to_asl` when no
exception occurs. -/
structure AslPayload where
  video_path : String
  asl_gloss : String
  processing_time : Int
deriving DecidableEq, Repr

/-- `ISLProcessor.translate`: the body runs the fallible pipeline — whose
outcome, success payload or exception message, is the parameter — inside
`try`, and the `except` clause normalizes any exception into
a `success: False` dictionary carrying `str(e)`. -/
def islProcessorTranslate (outcome : Except String IslPayload) : PyResult :=
  match outcome with
  | .ok p => { success := true, video_path := some p.video_path,
               isl_gloss := some p.isl_gloss,
               processing_time := some p.processing_time }
  | .error e => { success := false, error := some e }

/-- `ASLProcessor.translate`: same normalization as the ISL processor. -/
def aslProcessorTranslate (outcome : Except String AslPayload) : PyResult :=
  match outcome with
  | .ok p => { success := true, video_path := some p.video_path,
               asl_gloss := some p.asl_gloss,
               processing_time := some p.processing_time }
  | .error e => { success := false, error := some e }

/-- Claim C7: both processors are total on every pipeline outcome (no raw
exception escapes), an exception message `e` is converted into exactly
`{success: False, error: e}`, and a result is unsuccessful only when the
pipeline raised. -/
theorem processors_normalize_errors (ei : Except String IslPayload)
    (ea : Except String AslPayload) :
    ((islProcessorTranslate ei).success = false ↔
      ∃ e, ei = .error e ∧ islProcessorTranslate ei = { success := false, error := some e }) ∧
    ((aslProcessorTranslate ea).success = false ↔
      ∃ e, ea = .error e ∧ aslProcessorTranslate ea = { success := false, error := some e }) := by
  constructor
  · rcases ei with p | e <;> simp [islProcessorTranslate]
  · rcases ea with p | e <;> simp [aslProcessorTranslate]

/-- Whether `pat` occurs at the start of `l`. -/
def startsWithL : List Char → List Char → Bool
  | _, [] => true
  | [], _ :: _ => false
  | a :: as, b :: bs => a == b && startsWithL as bs

/-- Scanner for Python `str.replace`: replace every non-overlapping
occurrence of `pat` left to right, consuming one unit of fuel per scanned
character (the callers pass a nonempty pattern and fuel equal to the text
length, which always suffices). -/
def replaceFuel (pat rep : List Char) : Nat → List Char → List Char
  | 0, l => l
  | _ + 1, [] => []
  | fuel + 1, c :: rest =>
      if !pat.isEmpty && startsWithL (c :: rest) pat then
        rep ++ replaceFuel pat rep fuel (List.drop (pat.length - 1) rest)
      else c :: replaceFuel pat rep fuel rest

/-- Python `video_path.replace(pat, rep)`. -/
def pyReplace (s pat rep : String) : String :=
  ⟨replaceFuel pat.data rep.data s.data.length s.data⟩

theorem replaceFuel_skip (p : Char) (ps rep : List Char) (pre l : List Char)
    (h : ∀ c ∈ pre, c ≠ p) :
    replaceFuel (p :: ps) rep (pre.length + l.length) (pre ++ l) =
      pre ++ replaceFuel (p :: ps) rep l.length l := by
  induction pre with
  | nil => simp
  | cons c pre ih =>
    have hc : (c == p) = false := by
      simpa using h c (List.mem_cons_self c pre)
    have harith : (c :: pre).length + l.length = (pre.length + l.length) + 1 := by
      simp [List.length_cons]
      omega
    rw [harith, List.cons_append]
    show (if !(p :: ps).isEmpty && startsWithL (c :: (pre ++ l)) (p :: ps) then
        rep ++ replaceFuel (p :: ps) rep (pre.length + l.length)
          (List.drop ((p :: ps).length - 1) (pre ++ l))
      else c :: replaceFuel (p :: ps) rep (pre.length + l.length) (pre ++ l)) = _
    rw [show startsWithL (c :: (pre ++ l)) (p :: ps) = ((c == p) && startsWithL (pre ++ l) ps)
      from rfl, hc]
    simp only [Bool.false_and, Bool.and_false, Bool.false_eq_true, if_false, ite_false]
    rw [ih (fun c hc' => h c (List.mem_cons_of_mem _ hc'))]
    rfl

/-- Replacing `".mp4"` after a dot-free prefix rewrites exactly the final
occurrence. -/
theorem pyReplace_mp4_txt (pre : String) (h : ∀ c ∈ pre.data, c ≠ '.') :
    pyReplace (pre ++ ".mp4") ".mp4" ".txt" = pre ++ ".txt" := by
  apply String.ext
  have hdata : (pre ++ ".mp4").data = pre.data ++ ".mp4".data := String.data_append pre ".mp4"
  have hdata2 : (pre ++ ".txt").data = pre.data ++ ".txt".data := String.data_append pre ".txt"
  have hpat : (".mp4" : String).data = '.' :: "mp4".data := rfl
  have hbase : replaceFuel ('.' :: "mp4".data) ".txt".data (".mp4".data).length ".mp4".data
      = ".txt".data := by decide
  show replaceFuel ".mp4".data ".txt".data (pre ++ ".mp4").data.length (pre ++ ".mp4").data
      = (pre ++ ".txt").data
  rw [hdata, hdata2, List.length_append, hpat,
    replaceFuel_skip '.' "mp4".data ".txt".data pre.data ".mp4".data h, ← hpat, hbase]

theorem digitChar_ne_dot (k : Nat) (hk : k < 10) : Nat.digitChar k ≠ '.' := by
  interval_cases k <;> decide

theorem toDigitsCore_ne_dot (fuel : Nat) : ∀ (n : Nat) (ds : List Char),
    (∀ c ∈ ds, c ≠ '.') → ∀ c ∈ Nat.toDigitsCore 10 fuel n ds, c ≠ '.' := by
  induction fuel with
  | zero =>
    intro n ds hds c hc
    exact hds c hc
  | succ fuel ih =>
    intro n ds hds c hc
    simp only [Nat.toDigitsCore] at hc
    have hmod : n % 10 < 10 := Nat.mod_lt _ (by norm_num)
    split at hc
    · rcases List.mem_cons.1 hc with h | h
      · exact h ▸ digitChar_ne_dot _ hmod
      · exact hds c h
    · refine ih _ _ ?_ c hc
      intro c' hc'
      rcases List.mem_cons.1 hc' with h | h
      · exact h ▸ digitChar_ne_dot _ hmod
      · exact hds c' h

/-- Decimal representations of naturals contain no dot. -/
theorem repr_ne_dot (n : Nat) : ∀ c ∈ (Nat.repr n).data, c ≠ '.' := by
  intro c hc
  have : (Nat.repr n).data = Nat.toDigitsCore 10 (n + 1) n [] := rfl
  rw [this] at hc
  exact toDigitsCore_ne_dot (n + 1) n [] (by intro c' hc'; cases hc') c hc

/-- `app.config['UPLOAD_FOLDER']`. -/
def UPLOAD_FOLDER : String := "static/videos"

/-- `os.path.join` for the plain relative segments used here. -/
def path_join (a b : String) : String := a ++ "/" ++ b

/-- `ISLProcessor.create_placeholder_video`: write a plain-text description
of the gloss tokens to the path obtained by replacing `.mp4` with `.txt` in
the video path; the returned pair is the (path, contents) of the file
actually written. -/
def create_placeholder_video (video_path : String) (tokens : List String) :
    String × String :=
  (pyReplace video_path ".mp4" ".txt",
   "ISL Signs: " ++ String.intercalate " -> " tokens)

/-- `ISLProcessor.generate_isl_video`: build the filename
`isl_{int(time.time())}.mp4` from the whole-second timestamp, write the
placeholder file under the upload folder, and return the filename.  The
first component is the returned filename; the second is the (path,
contents) file written by `create_placeholder_video`. -/
def generate_isl_video (isl_tokens : List String) (now : Nat) :
    String × String × String :=
  let video_filename := "isl_" ++ Nat.repr now ++ ".mp4"
  let video_path := path_join UPLOAD_FOLDER video_filename
  (video_filename, create_placeholder_video video_path isl_tokens)

/-- `ASLProcessor.generate_asl_video`: same shape with the `asl` prefix and
an inline placeholder write. -/
def generate_asl_video (asl_tokens : List String) (now : Nat) :
    String × String × String :=
  let video_filename := "asl_" ++ Nat.repr now ++ ".mp4"
  let video_path := path_join UPLOAD_FOLDER video_filename
  (video_filename,
   (pyReplace video_path ".mp4" ".txt",
    "ASL Signs: " ++ String.intercalate " -> " asl_tokens))

/-- Counterexample to claim C8: at the spec's own example timestamp the
generated identifier is "isl_1699999999.mp4", not the bare
"isl_1699999999" form the claim requires. -/
theorem asset_name_not_bare :
    (generate_isl_video ["HELLO"] 1699999999).1 = "isl_1699999999.mp4" ∧
    (generate_isl_video ["HELLO"] 1699999999).1 ≠ "isl_1699999999" := by
  constructor <;> decide

/-- Claim C8 (amended): for every gloss sequence and whole-second
generation timestamp, the produced identifier is exactly
`{languagePrefix}_{unixSeconds}.mp4`: the bare `{prefix}_{seconds}` stem of
the claim plus the fixed `.mp4` extension appended by the f-string. -/
theorem asset_name_format (isl_tokens asl_tokens : List String) (now : Nat) :
    (generate_isl_video isl_tokens now).1 = "isl_" ++ Nat.repr now ++ ".mp4" ∧
    (generate_asl_video asl_tokens now).1 = "asl_" ++ Nat.repr now ++ ".mp4" :=
  ⟨rfl, rfl⟩

/-- Counterexample to claim C9: at timestamp 5 the ISL fallback renderer
writes the file "static/videos/isl_5.txt" but returns "isl_5.mp4" as the
asset reference, which resolves to "static/videos/isl_5.mp4" — not the file
it created. -/
theorem placeholder_reference_mismatch :
    (generate_isl_video ["A"] 5).2.1 = "static/videos/isl_5.txt" ∧
    path_join UPLOAD_FOLDER (generate_isl_video ["A"] 5).1
      = "static/videos/isl_5.mp4" ∧
    (generate_isl_video ["A"] 5).2.1
      ≠ path_join UPLOAD_FOLDER (generate_isl_video ["A"] 5).1 := by
  refine ⟨?_, ?_, ?_⟩ <;> decide

theorem placeholder_path (pfx : String) (now : Nat)
    (hp : ∀ c ∈ pfx.data, c ≠ '.') :
    pyReplace (path_join UPLOAD_FOLDER (pfx ++ Nat.repr now ++ ".mp4")) ".mp4" ".txt"
      = path_join UPLOAD_FOLDER (pfx ++ Nat.repr now ++ ".txt") := by
  have hassoc1 : path_join UPLOAD_FOLDER (pfx ++ Nat.repr now ++ ".mp4")
      = (UPLOAD_FOLDER ++ "/" ++ (pfx ++ Nat.repr now)) ++ ".mp4" := by
    simp [path_join, String.append_assoc]
  have hassoc2 : path_join UPLOAD_FOLDER (pfx ++ Nat.repr now ++ ".txt")
      = (UPLOAD_FOLDER ++ "/" ++ (pfx ++ Nat.repr now)) ++ ".txt" := by
    simp [path_join, String.append_assoc]
  rw [hassoc1, hassoc2]
  apply pyReplace_mp4_txt
  intro c hc
  rw [String.data_append, String.data_append, String.data_append] at hc
  have hU : ∀ c ∈ (UPLOAD_FOLDER : String).data, c ≠ '.' := by decide
  have hS : ∀ c ∈ ("/" : String).data, c ≠ '.' := by decide
  rcases List.mem_append.1 hc with h | h
  · rcases List.mem_append.1 h with h2 | h2
    · exact hU c h2
    · exact hS c h2
  · rcases List.mem_append.1 h with h2 | h2
    · exact hp c h2
    · exact repr_ne_dot now c h2

/-- Claim C9 (amended): for every gloss sequence and timestamp, the
fallback renderer writes the plain-text description of the gloss sequence
to the `.txt` variant of the video path, while returning the `.mp4`
filename as the asset reference — so the returned reference names a `.mp4`
path that is not the `.txt` file actually written. -/
theorem placeholder_writes_txt (tokens : List String) (now : Nat) :
    (generate_isl_video tokens now).2 =
      (path_join UPLOAD_FOLDER ("isl_" ++ Nat.repr now ++ ".txt"),
       "ISL Signs: " ++ String.intercalate " -> " tokens) ∧
    (generate_asl_video tokens now).2 =
      (path_join UPLOAD_FOLDER ("asl_" ++ Nat.repr now ++ ".txt"),
       "ASL Signs: " ++ String.intercalate " -> " tokens) ∧
    (generate_isl_video tokens now).1 = "isl_" ++ Nat.repr now ++ ".mp4" ∧
    (generate_asl_video tokens now).1 = "asl_" ++ Nat.repr now ++ ".mp4" := by
  refine ⟨?_, ?_, rfl, rfl⟩
  · show (pyReplace (path_join UPLOAD_FOLDER ("isl_" ++ Nat.repr now ++ ".mp4"))
        ".mp4" ".txt", "ISL Signs: " ++ String.intercalate " -> " tokens) = _
    rw [placeholder_path "isl_" now (by decide)]
  · show (pyReplace (path_join UPLOAD_FOLDER ("asl_" ++ Nat.repr now ++ ".mp4"))
        ".mp4" ".txt", "ASL Signs: " ++ String.intercalate " -> " tokens) = _
    rw [placeholder_path "asl_" now (by decide)]

/-- Witness for the amended C9 at a concrete gloss sequence and
timestamp. -/
theorem placeholder_writes_txt_witness :
    (generate_isl_video ["HELLO", "WORLD"] 7).2 =
      (path_join UPLOAD_FOLDER ("isl_" ++ Nat.repr 7 ++ ".txt"),
       "ISL Signs: " ++ String.intercalate " -> " ["HELLO", "WORLD"]) ∧
    (generate_asl_video ["HELLO", "WORLD"] 7).2 =
      (path_join UPLOAD_FOLDER ("asl_" ++ Nat.repr 7 ++ ".txt"),
       "ASL Signs: " ++ String.intercalate " -> " ["HELLO", "WORLD"]) ∧
    (generate_isl_video ["HELLO", "WORLD"] 7).1 = "isl_" ++ Nat.repr 7 ++ ".mp4" ∧
    (generate_asl_video ["HELLO", "WORLD"] 7).1 = "asl_" ++ Nat.repr 7 ++ ".mp4" :=
  placeholder_writes_txt ["HELLO", "WORLD"] 7

end TextToISL
